import Mathlib

/-!
Shallow embedding of fluent.runtime resolver (src/fluent.runtime/fluent/runtime/resolver.py).

The resolver evaluates a parsed Fluent message AST against a registry (FluentBundle) and
externally supplied arguments, producing a display string and a list of accumulated
diagnostics.  Python numbers are modelled as Int (floats, Decimals and dates carry no
weight in any claim; an externally supplied value of any other type is modelled by the
ArgVal.unsupported constructor).  Python exceptions are modelled by Except: the state at
the moment an exception propagates is returned alongside the error, mirroring the fact
that the mutable ResolverEnvironment object retains all mutations made before the raise.
Recursion is bounded by explicit fuel; running out of fuel yields the distinguished
RErr.outOfFuel, an artifact of the embedding, never a behaviour of the source.
-/

/-- MAX_PART_LENGTH from resolver.py line 29: memory DOS protection ceiling. -/
def MAX_PART_LENGTH : Nat := 2500

/-- MAX_PARTS from resolver.py line 32: CPU DOS protection ceiling. -/
def MAX_PARTS : Nat := 1000

/-- FSI bidi isolation character, resolver.py line 36. -/
def FSI : String := "\u2068"

/-- PDI bidi isolation character, resolver.py line 37. -/
def PDI : String := "\u2069"

/-- Runtime values produced by the handle dispatcher: strings, numbers (Python int,
modelled as Int) and FluentNone placeholder objects (types.py; the optional name is the
unresolved identifier the placeholder carries). -/
inductive Value where
  | str (s : String)
  | num (n : Int)
  | vnone (name : Option String)
deriving DecidableEq, Repr

/-- Externally supplied argument values stored in the args dict.  num and str are the
supported scalar kinds (resolver.py line 250 isinstance check; date, datetime and
Decimal behave like num for every claim and are omitted); vnone models a FluentNone
stored through term-call keyword arguments; unsupported models any other Python object,
which the isinstance check at resolver.py line 250 rejects. -/
inductive ArgVal where
  | num (n : Int)
  | str (s : String)
  | vnone (name : Option String)
  | unsupported (tag : String)
deriving DecidableEq, Repr

/-- Diagnostics accumulated in env.errors.  Each constructor corresponds to one append
site in resolver.py (or, for unknownReference, to unknown_reference_error_obj from
utils.py, modelled from the spec: one unknown-reference diagnostic carrying the failed
identifier). -/
inductive FluentError where
  | cyclicReference
  | tooManyParts
  | partTooLong (length : Nat)
  | unknownReference (id : String)
  | unknownExternal (name : String)
  | unsupportedExternalType (name : String)
  | unknownVariant (key : Value)
  | unknownFunction (name : String)
  | ignoredPositionalArgs (callee : String)
  | functionArgs (message : String)
deriving DecidableEq, Repr

/-- Python exceptions that can propagate out of the resolver: TypeError from the
singledispatch base case (resolver.py line 114), LookupError from handle_none
(line 235), AssertionError from handle_variant_expression (line 358), and the
UnboundLocalError that reading the never-initialised local default in
select_from_variant_list raises (line 293).  outOfFuel is an embedding artifact. -/
inductive RErr where
  | typeError
  | lookupError
  | assertionError
  | unboundLocal
  | outOfFuel
deriving DecidableEq, Repr

/-- CurrentEnvironment, resolver.py lines 40-54: the parts of the resolver environment
that are swapped out and restored by the modified context manager. -/
structure CurrentEnvironment where
  args : List (String × ArgVal)
  error_for_missing_arg : Bool := true
deriving DecidableEq, Repr

/-- Mutable parts of ResolverEnvironment, resolver.py lines 57-63 (context is carried
separately as the read-only Ctx below). -/
structure St where
  errors : List FluentError
  dirty : List Nat
  part_count : Nat
  current : CurrentEnvironment
deriving DecidableEq, Repr

/-- MessageReference and TermReference AST nodes (the base of an attribute expression). -/
inductive BaseRef where
  | messageReference (name : String)
  | termReference (name : String)
deriving DecidableEq, Repr

/-- Variant keys: VariantName identifiers or NumberLiteral keys. -/
inductive VariantKey where
  | identifier (name : String)
  | number (n : Int)
deriving DecidableEq, Repr

mutual
/-- Pattern AST node.  pid models Python object identity, the key used for the dirty
cyclic-guard set (distinct AST nodes have distinct pids in every concrete registry). -/
inductive Pattern where
  | mk (pid : Nat) (elements : List PatternElement)

/-- Pattern elements: literal TextElement or a Placeable wrapping an expression. -/
inductive PatternElement where
  | textElement (value : String)
  | placeable (expression : Expr)

/-- Expressions reachable inside a Placeable. -/
inductive Expr where
  | stringLiteral (value : String)
  | numberLiteral (value : Int)
  | variableReference (name : String)
  | messageReference (name : String)
  | termReference (name : String)
  | attributeExpression (ref : BaseRef) (name : String)
  | selectExpression (selector : Expr) (variants : List Variant)
  | variantListE (variants : List Variant)
  | variantExpression (ref : BaseRef) (key : String)
  | callExpression (callee : Callee) (positional : List Expr) (named : List NamedArg)

/-- A named argument of a CallExpression. -/
inductive NamedArg where
  | mk (name : String) (value : Expr)

/-- Variant of a SelectExpression or VariantList; defaultFlag is the Python attribute
named default. -/
inductive Variant where
  | mk (key : VariantKey) (value : Pattern) (defaultFlag : Bool)

/-- Callee of a CallExpression: a TermReference or AttributeExpression (term call), or
a plain function name (resolver.py line 371 isinstance test and line 380). -/
inductive Callee where
  | termReference (name : String)
  | attributeExpression (ref : BaseRef) (name : String)
  | function (name : String)
end

def Pattern.pid : Pattern → Nat
  | .mk p _ => p

def Pattern.elements : Pattern → List PatternElement
  | .mk _ es => es

def Variant.key : Variant → VariantKey
  | .mk k _ _ => k

def Variant.value : Variant → Pattern
  | .mk _ v _ => v

def Variant.defaultFlag : Variant → Bool
  | .mk _ _ d => d

def NamedArg.name : NamedArg → String
  | .mk n _ => n

def NamedArg.value : NamedArg → Expr
  | .mk _ v => v

/-- Body of a registered message or term: a Pattern or a VariantList. -/
inductive Body where
  | pattern (p : Pattern)
  | variantList (variants : List Variant)

/-- Entries of the registry dict context._messages_and_terms.  Modelled from the spec
for the part outside src: the registry maps one namespace of identifier strings to
Message and Term nodes and, under base.attribute keys, to Attribute nodes (spec section
6).  A Message or Term value may be absent (Python None). -/
inductive RegEntry where
  | message (value : Option Body)
  | term (value : Option Body)
  | attrib (value : Pattern)

/-- The value attribute read by handle_variant_expression (resolver.py line 358).
Message.value and Term.value are the stored bodies; Attribute.value is its Pattern. -/
def RegEntry.value : RegEntry → Option Body
  | .message v => v
  | .term v => v
  | .attrib p => some (.pattern p)

/-- References accepted by lookup_reference: MessageReference, TermReference or
AttributeExpression (resolver.py lines 202-224). -/
inductive RefNode where
  | base (r : BaseRef)
  | attributeExpression (ref : BaseRef) (name : String)

/-- Result of lookup_reference: the registry node, or a FluentNone carrying the
unresolved identifier. -/
inductive Looked where
  | entry (e : RegEntry)
  | fnone (name : String)

/-- Declared signature and implementation of a registered function.  Modelled from the
spec (section 4.5): check stands for inspect_function_args plus args_match from
utils.py (not under src); it reports whether the argument shapes match, the diagnostics
to accumulate, and the sanitized arguments; impl is the callable itself. -/
structure FluentFunction where
  check : List Value → List (String × Value) →
    Bool × List FluentError × List Value × List (String × Value)
  impl : List Value → List (String × Value) → Value

/-- Read-only collaborator state: the FluentBundle fields the resolver reads
(messages_and_terms and functions dicts, use_isolating flag, plural-form
classification and locale number formatting). -/
structure Ctx where
  messages_and_terms : String → Option RegEntry
  functions : String → Option FluentFunction
  use_isolating : Bool
  plural_form : Int → String
  format_number : Int → String

/-- FluentNone.format, modelled from the spec (section 7): a placeholder renders as the
unresolved identifier it carries, or as the empty string when it carries none. -/
def fluentNoneFormat (name : Option String) : String := name.getD ""

/-- reference_to_id from utils.py, modelled from the spec (section 6): the identifier of
a plain reference is its name; an attribute identifier joins base and attribute with a
dot. -/
def baseRefId : BaseRef → String
  | .messageReference n => n
  | .termReference n => n

def reference_to_id : RefNode → String
  | .base r => baseRefId r
  | .attributeExpression r a => baseRefId r ++ "." ++ a

/-- Converts the node returned by lookup_reference to an argument for handle. -/
def Looked.node : Looked → Option RegEntry
  | .entry e => some e
  | .fnone _ => none

/-- lookup_reference, resolver.py lines 202-224: look the identifier up in the
registry; on failure record one unknown-reference diagnostic, retry an attribute
reference with its parent identifier without recording a second diagnostic, and fall
back to a FluentNone carrying the full identifier. -/
def lookup_reference (ctx : Ctx) (ref : RefNode) (st : St) : Looked × St :=
  let ref_id := reference_to_id ref
  match ctx.messages_and_terms ref_id with
  | some node => (.entry node, st)
  | none =>
    let st1 := { st with errors := st.errors ++ [.unknownReference ref_id] }
    match ref with
    | .attributeExpression r _ =>
      match ctx.messages_and_terms (baseRefId r) with
      | some node => (.entry node, st1)
      | none => (.fnone ref_id, st1)
    | .base _ => (.fnone ref_id, st1)

/-- is_number, resolver.py line 326. -/
def Value.isNumber : Value → Bool
  | .num _ => true
  | _ => false

/-- Tests the Python condition x is None or isinstance x FluentNone used at the top of
match (resolver.py lines 331-334); Lean none models Python None. -/
def isNoneLike : Option Value → Bool
  | none => true
  | some (.vnone _) => true
  | _ => false

def isNumberO : Option Value → Bool
  | some v => v.isNumber
  | none => false

/-- Numeric payload of a value known to be a number (junk 0 otherwise; only read under
an isNumberO guard). -/
def numO : Option Value → Int
  | some (.num n) => n
  | _ => 0

/-- Python equality between runtime values: numbers compare by value, strings by value,
FluentNone by its attrs-generated field equality, and mixed kinds are unequal. -/
def valEq : Value → Value → Bool
  | .num a, .num b => a == b
  | .str a, .str b => a == b
  | .vnone a, .vnone b => a == b
  | _, _ => false

def valEqO : Option Value → Option Value → Bool
  | some a, some b => valEq a b
  | _, _ => false

/-- The selector match predicate, resolver.py lines 330-342 (Python function match;
renamed because match is a Lean keyword).  False when either side is None or
FluentNone; a numeric selector against a non-numeric candidate compares the locale
plural category of the selector with the candidate; a non-numeric selector against a
numeric candidate swaps the operands and reapplies; otherwise plain equality.  The fuel
only feeds the single swap recursion: any fuel of at least 2 is exact. -/
def matchValues (ctx : Ctx) : Nat → Option Value → Option Value → Bool
  | 0, _, _ => false
  | fuel+1, val1, val2 =>
    if isNoneLike val1 then false
    else if isNoneLike val2 then false
    else if isNumberO val1 then
      (if !isNumberO val2 then valEqO (some (.str (ctx.plural_form (numO val1)))) val2
       else valEqO val1 val2)
    else if isNumberO val2 then matchValues ctx fuel val2 val1
    else valEqO val1 val2

/-- Python set.add on the dirty set (idempotent). -/
def setAdd (l : List Nat) (x : Nat) : List Nat :=
  if l.contains x then l else x :: l

/-- The guard at resolver.py line 290: a real key was supplied (not None and not a
FluentNone), so a failed selection records an unknown-variant diagnostic. -/
def keyIsConcrete : Option Value → Bool
  | none => false
  | some (.vnone _) => false
  | some _ => true

/-- Payload for the unknown-variant diagnostic (the key is concrete when read). -/
def keyOf : Option Value → Value
  | some v => v
  | none => .vnone none

/-- Python dict insertion for keyword-argument dicts: a later binding of the same name
overwrites the earlier one. -/
def dictInsert (l : List (String × Value)) (k : String) (v : Value) : List (String × Value) :=
  match l with
  | [] => [(k, v)]
  | (k1, v1) :: rest => if k1 = k then (k, v) :: rest else (k1, v1) :: dictInsert rest k v

/-- Conversion of a handled keyword-argument value into a stored argument value: the
Python dict stores the objects themselves. -/
def Value.toArg : Value → ArgVal
  | .num n => .num n
  | .str s => .str s
  | .vnone n => .vnone n

/-- Callee classification of resolver.py line 371: a TermReference or
AttributeExpression callee is looked up as a term, a plain identifier callee is a
function name. -/
def calleeToRef : Callee → Option RefNode
  | .termReference n => some (.base (.termReference n))
  | .attributeExpression r a => some (.attributeExpression r a)
  | .function _ => none

/-- Objects the singledispatch handle function receives: registry nodes, message or
term bodies (possibly Python None), patterns, pattern elements, expressions, variant
keys, and runtime values fed back by fully_resolve. -/
inductive HNode where
  | entry (e : RegEntry)
  | body (b : Option Body)
  | pattern (p : Pattern)
  | element (el : PatternElement)
  | expr (e : Expr)
  | variantKey (k : VariantKey)
  | value (v : Value)

/-- Argument to handle for a lookup_reference result: the found node, or the FluentNone
placeholder value. -/
def lookedNode : Looked → HNode
  | .entry e => .entry e
  | .fnone name => .value (.vnone (some name))

mutual
/-- fully_resolve, resolver.py lines 97-109: handle the expression, and keep handling
the produced value until it is a string. -/
def fully_resolve (ctx : Ctx) : Nat → HNode → St → Except RErr String × St
  | 0, _, st => (.error .outOfFuel, st)
  | fuel+1, node, st =>
    match handle ctx fuel node st with
    | (.error e, st1) => (.error e, st1)
    | (.ok (.str s), st1) => (.ok s, st1)
    | (.ok v, st1) => fully_resolve ctx fuel (.value v) st1

/-- The singledispatch handle function, resolver.py lines 112-428, one branch per
registered handler.  Python raises are modelled as Except.error carrying the state at
the moment of the raise. -/
def handle (ctx : Ctx) : Nat → HNode → St → Except RErr Value × St
  | 0, _, st => (.error .outOfFuel, st)
  | fuel+1, node, st =>
    match node with
    -- handle_message (line 118) and handle_term (line 123): handle the stored value
    | .entry (.message value) => handle ctx fuel (.body value) st
    | .entry (.term value) => handle ctx fuel (.body value) st
    -- handle_attribute (line 265): handle the attribute Pattern
    | .entry (.attrib value) => handle ctx fuel (.pattern value) st
    -- handle_none (line 232): a completely missing body raises LookupError
    | .body none => (.error .lookupError, st)
    | .body (some (.pattern p)) => handle ctx fuel (.pattern p) st
    -- handle_variant_list (line 270)
    | .body (some (.variantList vs)) => select_from_variant_list ctx fuel vs none st
    -- handle_pattern (lines 128-168)
    | .pattern p =>
      if st.dirty.contains p.pid then
        (.ok (.vnone none), { st with errors := st.errors ++ [.cyclicReference] })
      else
        let st1 := { st with dirty := setAdd st.dirty p.pid }
        let use_isolating := ctx.use_isolating && decide (p.elements.length > 1)
        match handle_pattern_loop ctx fuel p.elements use_isolating [] st1 with
        | (.error e, st2) => (.error e, st2)
        | (.ok parts, st2) =>
          (.ok (.str (String.join parts)), { st2 with dirty := st2.dirty.erase p.pid })
    -- handle_text_element (line 171)
    | .element (.textElement v) => (.ok (.str v), st)
    -- handle_placeable (line 176)
    | .element (.placeable e) => handle ctx fuel (.expr e) st
    -- handle_string_expression (line 181)
    | .expr (.stringLiteral v) => (.ok (.str v), st)
    -- handle_number_expression (line 186)
    | .expr (.numberLiteral n) => (.ok (.num n), st)
    -- handle_variable_reference (lines 238-257)
    | .expr (.variableReference name) =>
      match st.current.args.lookup name with
      | none =>
        let st1 :=
          if st.current.error_for_missing_arg then
            { st with errors := st.errors ++ [.unknownExternal name] }
          else st
        (.ok (.vnone (some name)), st1)
      | some (.num n) => (.ok (.num n), st)
      | some (.str s) => (.ok (.str s), st)
      | some (.vnone _) =>
        (.ok (.vnone (some name)),
         { st with errors := st.errors ++ [.unsupportedExternalType name] })
      | some (.unsupported _) =>
        (.ok (.vnone (some name)),
         { st with errors := st.errors ++ [.unsupportedExternalType name] })
    -- handle_message_reference (line 191)
    | .expr (.messageReference name) =>
      let r := lookup_reference ctx (.base (.messageReference name)) st
      handle ctx fuel (lookedNode r.1) r.2
    -- handle_term_reference (lines 196-199): with modified_for_term_reference; the
    -- context manager has no try/finally, so the old current is reinstated only on a
    -- normal return, not when an error propagates
    | .expr (.termReference name) =>
      let old_current := st.current
      let st1 := { st with current := { args := [], error_for_missing_arg := false } }
      let r := lookup_reference ctx (.base (.termReference name)) st1
      match handle ctx fuel (lookedNode r.1) r.2 with
      | (.ok v, st2) => (.ok v, { st2 with current := old_current })
      | (.error e, st2) => (.error e, st2)
    -- handle_attribute_expression (line 260)
    | .expr (.attributeExpression ref aname) =>
      let r := lookup_reference ctx (.attributeExpression ref aname) st
      handle ctx fuel (lookedNode r.1) r.2
    -- handle_select_expression (lines 300-304)
    | .expr (.selectExpression selector variants) =>
      match handle ctx fuel (.expr selector) st with
      | (.error e, st1) => (.error e, st1)
      | (.ok key, st1) => select_from_select_expression ctx fuel variants (some key) st1
    -- handle_variant_list through a Placeable
    | .expr (.variantListE variants) => select_from_variant_list ctx fuel variants none st
    -- handle_variant_expression (lines 350-363): early return of a lookup FluentNone,
    -- then assert that the entry body is a VariantList (AssertionError otherwise)
    | .expr (.variantExpression ref key) =>
      let r := lookup_reference ctx (.base ref) st
      match r.1 with
      | .fnone name => (.ok (.vnone (some name)), r.2)
      | .entry e =>
        match e.value with
        | some (.variantList vs) => select_from_variant_list ctx fuel vs (some (.str key)) r.2
        | _ => (.error .assertionError, r.2)
    -- handle_call_expression (lines 366-393)
    | .expr (.callExpression callee positional named) =>
      match handle_args_list ctx fuel positional st with
      | (.error e, st1) => (.error e, st1)
      | (.ok args, st1) =>
        match handle_named_args ctx fuel named [] st1 with
        | (.error e, st2) => (.error e, st2)
        | (.ok kwargs, st2) =>
          match calleeToRef callee with
          | some cref =>
            -- term call: lookup, diagnose ignored positional args, then resolve the
            -- term body under modified_for_term_reference(args=kwargs)
            let r := lookup_reference ctx cref st2
            let st3 :=
              if args.isEmpty then r.2
              else { r.2 with errors :=
                       r.2.errors ++ [.ignoredPositionalArgs (reference_to_id cref)] }
            let old_current := st3.current
            let st4 := { st3 with current :=
              { args := kwargs.map (fun kv => (kv.1, kv.2.toArg)),
                error_for_missing_arg := false } }
            match handle ctx fuel (lookedNode r.1) st4 with
            | (.ok v, st5) => (.ok v, { st5 with current := old_current })
            | (.error e, st5) => (.error e, st5)
          | none =>
            match callee with
            | .function function_name =>
              match ctx.functions function_name with
              | none =>
                (.ok (.vnone (some (function_name ++ "()"))),
                 { st2 with errors := st2.errors ++ [.unknownFunction function_name] })
              | some f =>
                let c := f.check args kwargs
                let st3 := { st2 with errors := st2.errors ++ c.2.1 }
                if c.1 then (.ok (f.impl c.2.2.1 c.2.2.2), st3)
                else (.ok (.vnone (some (function_name ++ "()"))), st3)
            -- unreachable: calleeToRef is none only for function callees
            | _ => (.error .typeError, st2)
    -- handle_indentifier (line 345)
    | .variantKey (.identifier name) => (.ok (.str name), st)
    -- a NumberLiteral variant key, handle_number_expression (line 186)
    | .variantKey (.number n) => (.ok (.num n), st)
    -- no handler is registered for plain strings: singledispatch base raises TypeError
    | .value (.str _) => (.error .typeError, st)
    -- handle_int and friends (lines 401-413): format under the active locale
    | .value (.num n) => (.ok (.str (ctx.format_number n)), st)
    -- handle_fluent_none (line 227)
    | .value (.vnone name) => (.ok (.str (fluentNoneFormat name)), st)

/-- The element loop of handle_pattern, resolver.py lines 139-165.  parts accumulates
the rendered parts in order; the returned list is joined by the caller. -/
def handle_pattern_loop (ctx : Ctx) :
    Nat → List PatternElement → Bool → List String → St → Except RErr (List String) × St
  | 0, _, _, _, st => (.error .outOfFuel, st)
  | _+1, [], _, parts, st => (.ok parts, st)
  | fuel+1, element :: rest, use_isolating, parts, st =>
    let st := { st with part_count := st.part_count + 1 }
    if st.part_count > MAX_PARTS then
      if st.part_count = MAX_PARTS + 1 then
        -- only append an error once, with one placeholder-rendered part, then break
        let st1 := { st with errors := st.errors ++ [.tooManyParts] }
        match fully_resolve ctx fuel (.value (.vnone none)) st1 with
        | (.error e, st2) => (.error e, st2)
        | (.ok s, st2) => (.ok (parts ++ [s]), st2)
      else (.ok parts, st)
    else
      match element with
      | .textElement v =>
        -- shortcut deliberately omits the FSI/PDI chars here
        handle_pattern_loop ctx fuel rest use_isolating (parts ++ [v]) st
      | .placeable _ =>
        match fully_resolve ctx fuel (.element element) st with
        | (.error e, st1) => (.error e, st1)
        | (.ok part, st1) =>
          let parts := if use_isolating then parts ++ [FSI] else parts
          let (part, st2) :=
            if part.length > MAX_PART_LENGTH then
              (part.take MAX_PART_LENGTH,
               { st1 with errors := st1.errors ++ [.partTooLong part.length] })
            else (part, st1)
          let parts := parts ++ [part]
          let parts := if use_isolating then parts ++ [PDI] else parts
          handle_pattern_loop ctx fuel rest use_isolating parts st2

/-- select_from_variant_list, resolver.py lines 275-297.  The local default starts
unbound (Option none); evaluating found = default while it is unbound raises
UnboundLocalError. -/
def select_from_variant_list (ctx : Ctx) :
    Nat → List Variant → Option Value → St → Except RErr Value × St
  | 0, _, _, st => (.error .outOfFuel, st)
  | fuel+1, variants, key, st =>
    match variant_list_loop ctx fuel variants key none st with
    | (.error e, st1) => (.error e, st1)
    | (.ok (found, dflt), st1) =>
      match found with
      | some f => handle ctx fuel (.pattern f.value) st1
      | none =>
        let st2 :=
          if keyIsConcrete key then
            { st1 with errors := st1.errors ++ [.unknownVariant (keyOf key)] }
          else st1
        match dflt with
        | none => (.error .unboundLocal, st2)
        | some f =>
          -- found is now a Variant, so the final found-is-None placeholder return at
          -- line 294 is unreachable on this path
          handle ctx fuel (.pattern f.value) st2

/-- The variant loop of select_from_variant_list (lines 277-287): track the default
variant, short-circuit a pure default lookup (key None), and stop at the first variant
whose handled key matches. -/
def variant_list_loop (ctx : Ctx) :
    Nat → List Variant → Option Value → Option Variant → St →
    Except RErr (Option Variant × Option Variant) × St
  | 0, _, _, _, st => (.error .outOfFuel, st)
  | _+1, [], _, dflt, st => (.ok (none, dflt), st)
  | fuel+1, v :: rest, key, dflt, st =>
    let dflt := if v.defaultFlag then some v else dflt
    if v.defaultFlag && key.isNone then (.ok (none, dflt), st)
    else
      match handle ctx fuel (.variantKey v.key) st with
      | (.error e, st1) => (.error e, st1)
      | (.ok compare_value, st1) =>
        if matchValues ctx fuel key (some compare_value) then (.ok (some v, dflt), st1)
        else variant_list_loop ctx fuel rest key dflt st1

/-- select_from_select_expression, resolver.py lines 307-323.  Unlike the variant-list
version, the local default is initialised to None, so a selection with no match and no
default variant returns a nameless FluentNone placeholder. -/
def select_from_select_expression (ctx : Ctx) :
    Nat → List Variant → Option Value → St → Except RErr Value × St
  | 0, _, _, st => (.error .outOfFuel, st)
  | fuel+1, variants, key, st =>
    match select_expr_loop ctx fuel variants key none st with
    | (.error e, st1) => (.error e, st1)
    | (.ok (found0, dflt), st1) =>
      let found := match found0 with
        | some f => some f
        | none => dflt
      match found with
      | none => (.ok (.vnone none), st1)
      | some f => handle ctx fuel (.pattern f.value) st1

/-- The variant loop of select_from_select_expression (lines 310-317). -/
def select_expr_loop (ctx : Ctx) :
    Nat → List Variant → Option Value → Option Variant → St →
    Except RErr (Option Variant × Option Variant) × St
  | 0, _, _, _, st => (.error .outOfFuel, st)
  | _+1, [], _, dflt, st => (.ok (none, dflt), st)
  | fuel+1, v :: rest, key, dflt, st =>
    let dflt := if v.defaultFlag then some v else dflt
    match handle ctx fuel (.variantKey v.key) st with
    | (.error e, st1) => (.error e, st1)
    | (.ok compare_value, st1) =>
      if matchValues ctx fuel key (some compare_value) then (.ok (some v, dflt), st1)
      else select_expr_loop ctx fuel rest key dflt st1

/-- Left-to-right evaluation of positional call arguments (resolver.py line 368). -/
def handle_args_list (ctx : Ctx) :
    Nat → List Expr → St → Except RErr (List Value) × St
  | 0, _, st => (.error .outOfFuel, st)
  | _+1, [], st => (.ok [], st)
  | fuel+1, e :: rest, st =>
    match handle ctx fuel (.expr e) st with
    | (.error err, st1) => (.error err, st1)
    | (.ok v, st1) =>
      match handle_args_list ctx fuel rest st1 with
      | (.error err, st2) => (.error err, st2)
      | (.ok vs, st2) => (.ok (v :: vs), st2)

/-- Left-to-right evaluation of named call arguments into a dict (resolver.py
line 369). -/
def handle_named_args (ctx : Ctx) :
    Nat → List NamedArg → List (String × Value) → St →
    Except RErr (List (String × Value)) × St
  | 0, _, _, st => (.error .outOfFuel, st)
  | _+1, [], acc, st => (.ok acc, st)
  | fuel+1, na :: rest, acc, st =>
    match handle ctx fuel (.expr na.value) st with
    | (.error err, st1) => (.error err, st1)
    | (.ok v, st1) => handle_named_args ctx fuel rest (dictInsert acc na.name v) st1
end

/-- The entry operation resolve, resolver.py lines 83-94: build a fresh environment
with the supplied arguments (error_for_missing_arg true) and fully resolve the message;
on a normal return the result is the string together with the accumulated diagnostics,
and a propagating exception is surfaced as the error. -/
def resolve (ctx : Ctx) (message : RegEntry) (args : List (String × ArgVal)) (fuel : Nat) :
    Except RErr (String × List FluentError) :=
  let st : St :=
    { errors := [], dirty := [], part_count := 0,
      current := { args := args, error_for_missing_arg := true } }
  match fully_resolve ctx fuel (.entry message) st with
  | (.ok s, stF) => .ok (s, stF.errors)
  | (.error e, _) => .error e

deriving instance DecidableEq for Except

/-- States agreeing on the context-manager-scoped field current and on the cyclic
guard set dirty; the preservation theorem below shows every normally returning
evaluation step relates its input and output states this way. -/
def CDeq (st st2 : St) : Prop := st2.current = st.current ∧ st2.dirty = st.dirty

/-! Concrete fixtures used by the claim theorems: a minimal registry-free context, and
small registries exercising the code paths each claim names. -/

/-- Context with an empty registry, isolation off, a locale classifying every number as
plural category other, and decimal number formatting. -/
def ctxEmpty : Ctx :=
  { messages_and_terms := fun _ => none
    functions := fun _ => none
    use_isolating := false
    plural_form := fun _ => "other"
    format_number := fun n => toString n }

/-- Fresh state as built by resolve for empty external arguments. -/
def stEmpty : St :=
  { errors := [], dirty := [], part_count := 0,
    current := { args := [], error_for_missing_arg := true } }

/-- Registry with one term whose body is a Pattern (not a VariantList). -/
def ctxTermPattern : Ctx :=
  { ctxEmpty with messages_and_terms := fun id =>
      if id = "-t" then some (.term (some (.pattern (.mk 10 [.textElement "body"])))) else none }

/-- Message whose single element is a variant expression into that term. -/
def msgVariantExpr : RegEntry :=
  .message (some (.pattern (.mk 0 [.placeable (.variantExpression (.termReference "-t") "k")])))

/-- Registry with one term whose body is completely absent (Python None). -/
def ctxTermAbsent : Ctx :=
  { ctxEmpty with messages_and_terms := fun id =>
      if id = "-t" then some (.term none) else none }

/-- Registry with one term whose body is the one-element pattern B. -/
def ctxTermB : Ctx :=
  { ctxEmpty with messages_and_terms := fun id =>
      if id = "-t" then some (.term (some (.pattern (.mk 10 [.textElement "B"])))) else none }

/-- Call expression calling the term with one named argument. -/
def exprTermCall : Expr :=
  .callExpression (.termReference "-t") [] [.mk "y" (.stringLiteral "v")]

/-- State holding one external argument binding, as a term call would find it. -/
def stWithArg : St :=
  { errors := [], dirty := [], part_count := 0,
    current := { args := [("x", .str "orig")], error_for_missing_arg := true } }

/-- State whose guard set already holds the pattern identity 0. -/
def stDirty0 : St :=
  { errors := [], dirty := [0], part_count := 0,
    current := { args := [], error_for_missing_arg := true } }

/-- Pattern that references the message m it belongs to. -/
def patSelfRef : Pattern := .mk 0 [.placeable (.messageReference "m")]

/-- Message m whose pattern references m itself once. -/
def msgSelfRef : RegEntry := .message (some (.pattern patSelfRef))

/-- Registry mapping m to the self-referencing message. -/
def ctxSelfRef : Ctx :=
  { ctxEmpty with messages_and_terms := fun id =>
      if id = "m" then some msgSelfRef else none }

/-- Message m whose pattern references m itself twice. -/
def msgSelfRefTwice : RegEntry :=
  .message (some (.pattern (.mk 0 [.placeable (.messageReference "m"),
                                   .placeable (.messageReference "m")])))

/-- Registry mapping m to the doubly self-referencing message. -/
def ctxSelfRefTwice : Ctx :=
  { ctxEmpty with messages_and_terms := fun id =>
      if id = "m" then some msgSelfRefTwice else none }

/-- One non-default variant with key a. -/
def variantNoDefault : Variant := .mk (.identifier "a") (.mk 11 [.textElement "A"]) false

/-- Select expression with selector 5, an exact numeric variant 5, and an other
default. -/
def exprSelectExact : Expr :=
  .selectExpression (.numberLiteral 5)
    [.mk (.number 5) (.mk 21 [.textElement "exact"]) false,
     .mk (.identifier "other") (.mk 22 [.textElement "plural"]) true]

/-- Message wrapping the exact-match select expression. -/
def msgSelectExact : RegEntry := .message (some (.pattern (.mk 0 [.placeable exprSelectExact])))

/-- Message referencing the undefined external argument name. -/
def msgVarRef : RegEntry :=
  .message (some (.pattern (.mk 0 [.placeable (.variableReference "name")])))

/-- Registry with a term whose body references the call argument name. -/
def ctxTermVar : Ctx :=
  { ctxEmpty with messages_and_terms := fun id =>
      if id = "-t" then some (.term (some (.pattern (.mk 10 [.placeable (.variableReference "name")])))) else none }

/-- Message calling that term with only the named argument other, so that name is
absent from the scoped bindings. -/
def msgTermCallVar : RegEntry :=
  .message (some (.pattern (.mk 0
    [.placeable (.callExpression (.termReference "-t") [] [.mk "other" (.stringLiteral "x")])])))

/-- Pattern of 1001 identical text elements. -/
def msg1001 : RegEntry :=
  .message (some (.pattern (.mk 0 (List.replicate 1001 (.textElement "a")))))

/-- State sitting exactly at the part ceiling. -/
def stAtLimit : St :=
  { errors := [], dirty := [], part_count := MAX_PARTS,
    current := { args := [], error_for_missing_arg := true } }

/-- State one past the part ceiling. -/
def stPastLimit : St :=
  { errors := [], dirty := [], part_count := MAX_PARTS + 1,
    current := { args := [], error_for_missing_arg := true } }

/-- A 3000-character string. -/
def str3000 : String := String.mk (List.replicate 3000 'a')

/-! Helper lemmas about the pattern-element loop, shared by several claim theorems. -/

/-- Processing one text element below the part ceiling: the literal value is appended
verbatim with no isolation marks and no diagnostics, and the shared counter advances by
one. -/
theorem loop_text_step (ctx : Ctx) (fuel : Nat) (v : String) (rest : List PatternElement)
    (iso : Bool) (parts : List String) (st : St)
    (h : ¬ st.part_count + 1 > MAX_PARTS) :
    handle_pattern_loop ctx (fuel+1) (.textElement v :: rest) iso parts st
      = handle_pattern_loop ctx fuel rest iso (parts ++ [v])
          { st with part_count := st.part_count + 1 } := by
  simp only [handle_pattern_loop]
  rw [if_neg h]

/-- Crossing the part ceiling: the iteration that first pushes the counter past
MAX_PARTS appends exactly one too-many-parts diagnostic and one placeholder-rendered
part, then stops the loop. -/
theorem loop_limit_crossing (ctx : Ctx) (fuel : Nat) (el : PatternElement)
    (rest : List PatternElement) (iso : Bool) (parts : List String) (st : St)
    (h : st.part_count = MAX_PARTS) :
    handle_pattern_loop ctx (fuel+3) (el :: rest) iso parts st
      = (.ok (parts ++ [fluentNoneFormat none]),
         { st with part_count := MAX_PARTS + 1,
                   errors := st.errors ++ [.tooManyParts] }) := by
  simp only [handle_pattern_loop, fully_resolve, handle, h]
  rw [if_pos (Nat.lt_succ_self MAX_PARTS)]
  simp only [if_true]

/-- Beyond the ceiling: every later loop entry increments the counter once more and
stops immediately, appending neither parts nor diagnostics. -/
theorem loop_beyond_limit (ctx : Ctx) (fuel : Nat) (el : PatternElement)
    (rest : List PatternElement) (iso : Bool) (parts : List String) (st : St)
    (h : st.part_count > MAX_PARTS) :
    handle_pattern_loop ctx (fuel+1) (el :: rest) iso parts st
      = (.ok parts, { st with part_count := st.part_count + 1 }) := by
  simp only [handle_pattern_loop]
  rw [if_pos (by omega), if_neg (by omega)]

/-- Processing a run of n identical text elements below the ceiling appends the n
literal values and advances the counter by n. -/
theorem loop_text_rep (ctx : Ctx) (t : String) (iso : Bool) :
    ∀ (n fuel : Nat) (rest : List PatternElement) (parts : List String) (st : St),
      st.part_count + n ≤ MAX_PARTS →
      handle_pattern_loop ctx (fuel + n) (List.replicate n (.textElement t) ++ rest) iso parts st
        = handle_pattern_loop ctx fuel rest iso (parts ++ List.replicate n t)
            { st with part_count := st.part_count + n }
  | 0, fuel, rest, parts, st, h => by simp
  | n+1, fuel, rest, parts, st, h => by
      have hlt : ¬ st.part_count + 1 > MAX_PARTS := by omega
      rw [List.replicate_succ, List.cons_append]
      rw [show fuel + (n+1) = (fuel + n) + 1 from rfl]
      rw [loop_text_step ctx (fuel + n) t _ iso parts st hlt]
      rw [loop_text_rep ctx t iso n fuel rest (parts ++ [t]) _ (by simp; omega)]
      simp [List.replicate_succ]
      rw [show st.part_count + 1 + n = st.part_count + (n + 1) from by omega]

/-- Resolving a message whose body is a pattern reduces to the element loop: if the
loop returns parts, resolve returns their concatenation with the accumulated
diagnostics. -/
theorem resolve_via_loop (ctx : Ctx) (args : List (String × ArgVal)) (p : Pattern)
    (f : Nat) (parts : List String) (st2 : St)
    (hloop : handle_pattern_loop ctx f p.elements
        (ctx.use_isolating && decide (p.elements.length > 1)) []
        { errors := [], dirty := setAdd [] p.pid, part_count := 0,
          current := { args := args, error_for_missing_arg := true } } = (.ok parts, st2)) :
    resolve ctx (.message (some (.pattern p))) args (f+4) = .ok (String.join parts, st2.errors) := by
  simp [resolve, fully_resolve, handle, hloop]

/-- The 1001-element pattern: under every context and argument set, resolution renders
the first 1000 literal elements, then one placeholder and exactly one too-many-parts
diagnostic. -/
theorem resolve_1001_parts (ctx : Ctx) (args : List (String × ArgVal)) :
    resolve ctx msg1001 args 1010
      = .ok (String.join (List.replicate 1000 "a" ++ [fluentNoneFormat none]),
             [.tooManyParts]) := by
  have hsplit : List.replicate 1001 (PatternElement.textElement "a")
      = List.replicate 1000 (PatternElement.textElement "a") ++ [PatternElement.textElement "a"] := by
    rw [← List.replicate_succ']
  have hloop : handle_pattern_loop ctx 1006
      (List.replicate 1001 (PatternElement.textElement "a"))
      (ctx.use_isolating && decide ((List.replicate 1001 (PatternElement.textElement "a")).length > 1)) []
      { errors := [], dirty := setAdd [] 0, part_count := 0,
        current := { args := args, error_for_missing_arg := true } }
      = (.ok (List.replicate 1000 "a" ++ [fluentNoneFormat none]),
         { errors := [.tooManyParts], dirty := setAdd [] 0, part_count := MAX_PARTS + 1,
           current := { args := args, error_for_missing_arg := true } }) := by
    rw [hsplit, show (1006 : Nat) = 6 + 1000 from by norm_num]
    rw [loop_text_rep ctx "a" _ 1000 6 _ _ _ (by simp [MAX_PARTS])]
    rw [show (6 : Nat) = 3 + 3 from by norm_num]
    rw [loop_limit_crossing ctx 3 _ _ _ _ _ (by simp [MAX_PARTS])]
    simp only [List.nil_append]
  have := resolve_via_loop ctx args (.mk 0 (List.replicate 1001 (.textElement "a"))) 1006
      (List.replicate 1000 "a" ++ [fluentNoneFormat none]) _ (by
        simp only [Pattern.elements, Pattern.pid]
        exact hloop)
  rw [show (1010 : Nat) = 1006 + 4 from by norm_num]
  exact this

/-- Claim C1: the claim says resolve never raises for data-level problems (among them
malformed variant lists), reserving raising for an entirely absent body.  The code
disagrees: a variant expression whose target term has a Pattern body (a data-level
malformed variant list, with every body present) hits the assertion at resolver.py
line 358 and raises AssertionError out of resolve. -/
theorem claim_C1 : resolve ctxTermPattern msgVariantExpr [] 30 = .error .assertionError := by
  rfl

/-- Claim C4: for a select expression, no match and no default indeed yields the
placeholder; but for a variant list the claim fails: the local default of
select_from_variant_list (resolver.py line 276) is never initialised, so with no
default variant and an unmatched key the function raises UnboundLocalError instead of
returning a placeholder. -/
theorem claim_C4 :
    (select_from_variant_list ctxEmpty 10 [variantNoDefault] (some (.str "b")) stEmpty
      = (.error .unboundLocal,
         { errors := [.unknownVariant (.str "b")], dirty := [], part_count := 0,
           current := { args := [], error_for_missing_arg := true } }))
    ∧ (select_from_select_expression ctxEmpty 10 [variantNoDefault] (some (.str "b")) stEmpty
      = (.ok (.vnone none), stEmpty)) := by
  exact ⟨rfl, rfl⟩

/-- Claim C2 counterexample: a term call whose term body is absent raises out of the
modified context manager; because modified has no try/finally, the replacement
bindings are still installed when the error leaves the subtree, so the previous
bindings are not restored on this exit path. -/
theorem claim_C2_counterexample :
    (handle ctxTermAbsent 20 (.expr exprTermCall) stWithArg).1 = .error .lookupError
    ∧ (handle ctxTermAbsent 20 (.expr exprTermCall) stWithArg).2.current ≠ stWithArg.current := by
  constructor
  · rfl
  · decide

/-- Claim C3 counterexample: a message whose pattern references itself twice yields two
cyclic-reference diagnostics in one resolution, not exactly one. -/
theorem claim_C3_counterexample :
    resolve ctxSelfRefTwice msgSelfRefTwice [] 30
      = .ok ("", [.cyclicReference, .cyclicReference]) := by
  rfl

/-- Claim C5: crossing the 1000-part ceiling appends exactly one too-many-parts
diagnostic and one placeholder-rendered part and stops the loop; any later pattern
iteration in the same call increments the shared counter once and stops without
appending anything; and a pattern of 1001 elements renders the first 1000 elements
plus one placeholder marker with exactly one diagnostic. -/
theorem claim_C5 :
    (∀ (ctx : Ctx) (fuel : Nat) (el : PatternElement) (rest : List PatternElement)
       (iso : Bool) (parts : List String) (st : St),
       st.part_count = MAX_PARTS →
       handle_pattern_loop ctx (fuel+3) (el :: rest) iso parts st
         = (.ok (parts ++ [fluentNoneFormat none]),
            { st with part_count := MAX_PARTS + 1,
                      errors := st.errors ++ [.tooManyParts] }))
    ∧ (∀ (ctx : Ctx) (fuel : Nat) (el : PatternElement) (rest : List PatternElement)
         (iso : Bool) (parts : List String) (st : St),
         st.part_count > MAX_PARTS →
         handle_pattern_loop ctx (fuel+1) (el :: rest) iso parts st
           = (.ok parts, { st with part_count := st.part_count + 1 }))
    ∧ (∀ (ctx : Ctx) (args : List (String × ArgVal)),
         resolve ctx msg1001 args 1010
           = .ok (String.join (List.replicate 1000 "a" ++ [fluentNoneFormat none]),
                  [.tooManyParts])) :=
  ⟨loop_limit_crossing, loop_beyond_limit, resolve_1001_parts⟩

/-- Witness for claim C5 at concrete inputs: the ceiling crossing at a state sitting
exactly at 1000 parts, the stop beyond the ceiling, and the 1001-element pattern under
the empty registry. -/
theorem claim_C5_witness :
    (stAtLimit.part_count = MAX_PARTS
      ∧ handle_pattern_loop ctxEmpty 3 [.textElement "x"] false [] stAtLimit
          = (.ok [fluentNoneFormat none],
             { errors := [.tooManyParts], dirty := [], part_count := MAX_PARTS + 1,
               current := { args := [], error_for_missing_arg := true } }))
    ∧ (stPastLimit.part_count > MAX_PARTS
      ∧ handle_pattern_loop ctxEmpty 1 [.textElement "x"] false [] stPastLimit
          = (.ok [],
             { errors := [], dirty := [], part_count := stPastLimit.part_count + 1,
               current := { args := [], error_for_missing_arg := true } }))
    ∧ resolve ctxEmpty msg1001 [] 1010
        = .ok (String.join (List.replicate 1000 "a" ++ [fluentNoneFormat none]),
               [.tooManyParts]) :=
  ⟨⟨rfl, claim_C5.1 ctxEmpty 0 (.textElement "x") [] false [] stAtLimit rfl⟩,
   ⟨by decide, claim_C5.2.1 ctxEmpty 0 (.textElement "x") [] false [] stPastLimit (by decide)⟩,
   claim_C5.2.2 ctxEmpty []⟩

set_option maxRecDepth 4000 in
/-- Claim C6: a non-text element whose fully resolved string is longer than 2500
characters produces exactly one part-too-long diagnostic for that occurrence and
contributes exactly its first 2500 characters, leaving the rest of the loop state
untouched. -/
theorem claim_C6 (ctx : Ctx) (fuel : Nat) (s : String) (rest : List PatternElement)
    (iso : Bool) (parts : List String) (st : St)
    (hc : ¬ st.part_count + 1 > MAX_PARTS) (hl : s.length > MAX_PART_LENGTH) :
    handle_pattern_loop ctx (fuel+4) (.placeable (.stringLiteral s) :: rest) iso parts st
      = handle_pattern_loop ctx (fuel+3) rest iso
          ((if iso then parts ++ [FSI] else parts) ++ [s.take MAX_PART_LENGTH]
            ++ (if iso then [PDI] else []))
          { st with part_count := st.part_count + 1,
                    errors := st.errors ++ [.partTooLong s.length] } := by
  simp only [handle_pattern_loop, fully_resolve, handle]
  rw [if_neg hc]
  cases iso <;> rw [if_pos hl] <;> simp

/-- Witness for claim C6: a 3000-character element is truncated to its first 2500
characters with one part-too-long diagnostic. -/
theorem claim_C6_witness :
    str3000.length > MAX_PART_LENGTH
    ∧ handle_pattern_loop ctxEmpty 4 [.placeable (.stringLiteral str3000)] false [] stEmpty
      = handle_pattern_loop ctxEmpty 3 [] false
          ((if false then ([] : List String) ++ [FSI] else []) ++ [str3000.take MAX_PART_LENGTH]
            ++ (if false then [PDI] else []))
          { stEmpty with part_count := stEmpty.part_count + 1,
                         errors := stEmpty.errors ++ [.partTooLong str3000.length] } := by
  have hl : str3000.length > MAX_PART_LENGTH := by
    rw [show str3000.length = (List.replicate 3000 'a').length from rfl, List.length_replicate]
    norm_num [MAX_PART_LENGTH]
  exact ⟨hl, claim_C6 ctxEmpty 0 str3000 [] false [] stEmpty (by decide) hl⟩

/-- Claim C7: the selector match predicate is false whenever either side is absent or a
placeholder; a numeric selector against a non-numeric candidate compares the locale
plural category of the selector with the candidate; a non-numeric selector against a
numeric candidate swaps the operands and reapplies the predicate; all remaining cases
compare by equality; and the select expression with selector 5, numeric variant key 5
and an other default resolves to the exact numeric variant with no diagnostics. -/
theorem claim_C7 :
    (∀ (ctx : Ctx) (fuel : Nat) (v : Option Value),
       matchValues ctx (fuel+1) none v = false)
    ∧ (∀ (ctx : Ctx) (fuel : Nat) (nm : Option String) (v : Option Value),
       matchValues ctx (fuel+1) (some (.vnone nm)) v = false)
    ∧ (∀ (ctx : Ctx) (fuel : Nat) (v : Option Value) (nm : Option String),
       matchValues ctx (fuel+1) v none = false
       ∧ matchValues ctx (fuel+1) v (some (.vnone nm)) = false)
    ∧ (∀ (ctx : Ctx) (fuel : Nat) (n : Int) (s : String),
       matchValues ctx (fuel+1) (some (.num n)) (some (.str s)) = (ctx.plural_form n == s))
    ∧ (∀ (ctx : Ctx) (fuel : Nat) (s : String) (n : Int),
       matchValues ctx (fuel+2) (some (.str s)) (some (.num n))
         = matchValues ctx (fuel+1) (some (.num n)) (some (.str s)))
    ∧ (∀ (ctx : Ctx) (fuel : Nat) (a b : Int) (s t : String),
       matchValues ctx (fuel+1) (some (.num a)) (some (.num b)) = (a == b)
       ∧ matchValues ctx (fuel+1) (some (.str s)) (some (.str t)) = (s == t))
    ∧ resolve ctxEmpty msgSelectExact [] 30 = .ok ("exact", []) := by
  refine ⟨?_, ?_, ?_, ?_, ?_, ?_, ?_⟩
  · intro ctx fuel v
    simp [matchValues, isNoneLike]
  · intro ctx fuel nm v
    simp [matchValues, isNoneLike]
  · intro ctx fuel v nm
    constructor <;>
      · cases v with
        | none => simp [matchValues, isNoneLike]
        | some val => cases val <;> simp [matchValues, isNoneLike]
  · intro ctx fuel n s
    simp [matchValues, isNoneLike, isNumberO, Value.isNumber, numO, valEqO, valEq]
  · intro ctx fuel s n
    simp [matchValues, isNoneLike, isNumberO, Value.isNumber]
  · intro ctx fuel a b s t
    constructor <;> simp [matchValues, isNoneLike, isNumberO, Value.isNumber, valEqO, valEq]
  · rfl

/-- Witness for claim C7: the predicate evaluated at concrete inputs under the empty
registry context, whose plural classification is constantly other. -/
theorem claim_C7_witness :
    matchValues ctxEmpty 1 none (some (.str "x")) = false
    ∧ matchValues ctxEmpty 1 (some (.num 5)) (some (.str "other"))
        = (ctxEmpty.plural_form 5 == "other")
    ∧ matchValues ctxEmpty 2 (some (.str "other")) (some (.num 5))
        = matchValues ctxEmpty 1 (some (.num 5)) (some (.str "other"))
    ∧ matchValues ctxEmpty 1 (some (.num 5)) (some (.num 5)) = ((5 : Int) == 5)
    ∧ resolve ctxEmpty msgSelectExact [] 30 = .ok ("exact", []) :=
  ⟨claim_C7.1 ctxEmpty 0 (some (.str "x")),
   claim_C7.2.2.2.1 ctxEmpty 0 5 "other",
   claim_C7.2.2.2.2.1 ctxEmpty 0 "other" 5,
   (claim_C7.2.2.2.2.2.1 ctxEmpty 0 5 5 "" "").1,
   claim_C7.2.2.2.2.2.2⟩

/-- Claim C8: an attribute reference whose full dotted identifier is missing from the
registry records exactly one unknown-reference diagnostic carrying the full identifier
and retries with the base identifier alone; when the fallback also fails no second
diagnostic is recorded and a placeholder carrying the full identifier is returned. -/
theorem claim_C8 (ctx : Ctx) (b : BaseRef) (a : String) (st : St)
    (h : ctx.messages_and_terms (baseRefId b ++ "." ++ a) = none) :
    lookup_reference ctx (.attributeExpression b a) st =
      ((match ctx.messages_and_terms (baseRefId b) with
        | some e => Looked.entry e
        | none => Looked.fnone (baseRefId b ++ "." ++ a)),
       { st with errors := st.errors ++ [.unknownReference (baseRefId b ++ "." ++ a)] }) := by
  simp only [lookup_reference, reference_to_id, h]
  cases hp : ctx.messages_and_terms (baseRefId b) <;> simp [hp]

/-- Witness for claim C8: under the empty registry the double failure yields one
diagnostic and the placeholder carrying m.a. -/
theorem claim_C8_witness :
    ctxEmpty.messages_and_terms (baseRefId (.messageReference "m") ++ "." ++ "a") = none
    ∧ lookup_reference ctxEmpty (.attributeExpression (.messageReference "m") "a") stEmpty =
        (.fnone "m.a",
         { errors := [.unknownReference "m.a"], dirty := [], part_count := 0,
           current := { args := [], error_for_missing_arg := true } }) :=
  ⟨rfl, claim_C8 ctxEmpty (.messageReference "m") "a" stEmpty rfl⟩

/-- Claim C9: a variable reference whose name is absent from the current bindings
returns a placeholder carrying the name, and appends an unknown-external diagnostic
exactly when error_for_missing_arg holds; resolving a top-level message (flag true)
gives one diagnostic, while the same missing lookup inside a term call resolving its
explicit call arguments (flag false) gives none. -/
theorem claim_C9 :
    (∀ (ctx : Ctx) (fuel : Nat) (name : String) (st : St),
       st.current.args.lookup name = none →
       handle ctx (fuel+1) (.expr (.variableReference name)) st
         = (.ok (.vnone (some name)),
            if st.current.error_for_missing_arg then
              { st with errors := st.errors ++ [.unknownExternal name] }
            else st))
    ∧ resolve ctxEmpty msgVarRef [] 30 = .ok ("name", [.unknownExternal "name"])
    ∧ resolve ctxTermVar msgTermCallVar [] 30 = .ok ("name", []) := by
  refine ⟨?_, ?_, ?_⟩
  · intro ctx fuel name st h
    simp only [handle, h]
  · rfl
  · rfl

/-- Witness for claim C9: the generic missing-binding equation applied at the fresh
top-level state, where the flag is true. -/
theorem claim_C9_witness :
    stEmpty.current.args.lookup "name" = none
    ∧ handle ctxEmpty 1 (.expr (.variableReference "name")) stEmpty
        = (.ok (.vnone (some "name")),
           if stEmpty.current.error_for_missing_arg then
             { stEmpty with errors := stEmpty.errors ++ [.unknownExternal "name"] }
           else stEmpty) :=
  ⟨rfl, claim_C9.1 ctxEmpty 0 "name" stEmpty rfl⟩

/-- Claim C10: a literal text element below the part ceiling is appended to the output
verbatim whatever its length: no truncation, no part-too-long diagnostic, no isolation
marks, while still advancing the shared part counter by one. -/
theorem claim_C10 (ctx : Ctx) (fuel : Nat) (v : String) (rest : List PatternElement)
    (iso : Bool) (parts : List String) (st : St)
    (h : ¬ st.part_count + 1 > MAX_PARTS) :
    handle_pattern_loop ctx (fuel+1) (.textElement v :: rest) iso parts st
      = handle_pattern_loop ctx fuel rest iso (parts ++ [v])
          { st with part_count := st.part_count + 1 } := by
  simp only [handle_pattern_loop]
  rw [if_neg h]

/-- Witness for claim C10: a 3000-character text element passes through verbatim, with
no diagnostics, even though 3000 exceeds the 2500-character part ceiling. -/
theorem claim_C10_witness :
    ¬ stEmpty.part_count + 1 > MAX_PARTS
    ∧ handle_pattern_loop ctxEmpty 1 [.textElement str3000] false [] stEmpty
        = handle_pattern_loop ctxEmpty 0 [] false [str3000]
            { stEmpty with part_count := stEmpty.part_count + 1 } :=
  ⟨by decide, claim_C10 ctxEmpty 0 str3000 [] false [] stEmpty (by decide)⟩

/-- CDeq is reflexive. -/
theorem CDeq_rfl (st : St) : CDeq st st := ⟨rfl, rfl⟩

/-- CDeq is transitive. -/
theorem CDeq_trans {a b c : St} (h1 : CDeq a b) (h2 : CDeq b c) : CDeq a c :=
  ⟨h2.1.trans h1.1, h2.2.trans h1.2⟩

/-- lookup_reference only appends diagnostics: current and dirty are untouched. -/
theorem lookup_reference_cd (ctx : Ctx) (ref : RefNode) (st : St) :
    CDeq st (lookup_reference ctx ref st).2 := by
  simp only [lookup_reference]
  split
  · exact CDeq_rfl st
  · split
    · split <;> exact ⟨rfl, rfl⟩
    · exact ⟨rfl, rfl⟩

/-- Equal pair results with ok values have equal state components. -/
theorem ok_state {α : Type} {v r : α} {stA stB : St}
    (h : ((Except.ok v : Except RErr α), stA) = (Except.ok r, stB)) : stA = stB := by
  injection h with h1 h2

/-- Updating only the errors field preserves current and dirty. -/
theorem CDeq_update_errors (st : St) (E : List FluentError) :
    CDeq st { st with errors := E } := ⟨rfl, rfl⟩

/-- Conditionally updating only the errors field preserves current and dirty. -/
theorem CDeq_ite_errors (st : St) (C : Prop) [Decidable C] (E : List FluentError) :
    CDeq st (if C then { st with errors := E } else st) := by
  split
  · exact ⟨rfl, rfl⟩
  · exact CDeq_rfl st

/-- Preservation of the scoped state: whenever any evaluation function of the
resolver returns normally, the final environment carries the same current bindings and
the same cyclic-guard set as the initial one: every binding replacement installed by
the modified context manager has been popped exactly once, and every pattern identity
added to the guard set has been removed. -/
theorem cd_preservation (ctx : Ctx) : ∀ fuel : Nat,
    (∀ (node : HNode) (st : St) (r : Value) (st2 : St),
       handle ctx fuel node st = (.ok r, st2) → CDeq st st2)
    ∧ (∀ (node : HNode) (st : St) (s : String) (st2 : St),
       fully_resolve ctx fuel node st = (.ok s, st2) → CDeq st st2)
    ∧ (∀ (els : List PatternElement) (iso : Bool) (parts : List String) (st : St)
         (r : List String) (st2 : St),
       handle_pattern_loop ctx fuel els iso parts st = (.ok r, st2) → CDeq st st2)
    ∧ (∀ (vs : List Variant) (key : Option Value) (st : St) (r : Value) (st2 : St),
       select_from_variant_list ctx fuel vs key st = (.ok r, st2) → CDeq st st2)
    ∧ (∀ (vs : List Variant) (key : Option Value) (dflt : Option Variant) (st : St)
         (r : Option Variant × Option Variant) (st2 : St),
       variant_list_loop ctx fuel vs key dflt st = (.ok r, st2) → CDeq st st2)
    ∧ (∀ (vs : List Variant) (key : Option Value) (st : St) (r : Value) (st2 : St),
       select_from_select_expression ctx fuel vs key st = (.ok r, st2) → CDeq st st2)
    ∧ (∀ (vs : List Variant) (key : Option Value) (dflt : Option Variant) (st : St)
         (r : Option Variant × Option Variant) (st2 : St),
       select_expr_loop ctx fuel vs key dflt st = (.ok r, st2) → CDeq st st2)
    ∧ (∀ (es : List Expr) (st : St) (r : List Value) (st2 : St),
       handle_args_list ctx fuel es st = (.ok r, st2) → CDeq st st2)
    ∧ (∀ (nas : List NamedArg) (acc : List (String × Value)) (st : St)
         (r : List (String × Value)) (st2 : St),
       handle_named_args ctx fuel nas acc st = (.ok r, st2) → CDeq st st2) := by
  intro fuel
  induction fuel with
  | zero =>
    refine ⟨?_, ?_, ?_, ?_, ?_, ?_, ?_, ?_, ?_⟩ <;> intros <;> rename_i h <;>
      simp [handle, fully_resolve, handle_pattern_loop, select_from_variant_list,
        variant_list_loop, select_from_select_expression, select_expr_loop,
        handle_args_list, handle_named_args] at h
  | succ n ih =>
    obtain ⟨ihH, ihFR, ihLoop, ihSVL, ihVLL, ihSSE, ihSEL, ihAL, ihNA⟩ := ih
    refine ⟨?_, ?_, ?_, ?_, ?_, ?_, ?_, ?_, ?_⟩
    · -- handle
      intro node st r st2 h
      cases node with
      | entry e =>
        cases e with
        | message v =>
          simp only [handle] at h
          exact ihH _ _ _ _ h
        | term v =>
          simp only [handle] at h
          exact ihH _ _ _ _ h
        | attrib v =>
          simp only [handle] at h
          exact ihH _ _ _ _ h
      | body b =>
        cases b with
        | none => simp [handle] at h
        | some bv =>
          cases bv with
          | pattern p =>
            simp only [handle] at h
            exact ihH _ _ _ _ h
          | variantList vs =>
            simp only [handle] at h
            exact ihSVL _ _ _ _ _ h
      | pattern p =>
        simp only [handle] at h
        split at h
        · exact (ok_state h) ▸ ⟨rfl, rfl⟩
        · rename_i hnc
          split at h
          · simp at h
          · rename_i parts stL heqL
            have hcd := ihLoop _ _ _ _ _ _ heqL
            refine (ok_state h) ▸ ⟨hcd.1, ?_⟩
            show stL.dirty.erase p.pid = st.dirty
            rw [hcd.2]
            show (setAdd st.dirty p.pid).erase p.pid = st.dirty
            rw [setAdd, if_neg hnc]
            exact List.erase_cons_head p.pid st.dirty
      | element el =>
        cases el with
        | textElement v =>
          simp only [handle] at h
          exact (ok_state h) ▸ CDeq_rfl st
        | placeable e =>
          simp only [handle] at h
          exact ihH _ _ _ _ h
      | expr e =>
        cases e with
        | stringLiteral v =>
          simp only [handle] at h
          exact (ok_state h) ▸ CDeq_rfl st
        | numberLiteral nv =>
          simp only [handle] at h
          exact (ok_state h) ▸ CDeq_rfl st
        | variableReference name =>
          simp only [handle] at h
          split at h
          · exact (ok_state h) ▸ CDeq_ite_errors st _ _
          · exact (ok_state h) ▸ CDeq_rfl st
          · exact (ok_state h) ▸ CDeq_rfl st
          · exact (ok_state h) ▸ CDeq_update_errors st _
          · exact (ok_state h) ▸ CDeq_update_errors st _
        | messageReference name =>
          simp only [handle] at h
          exact CDeq_trans (lookup_reference_cd ctx _ st) (ihH _ _ _ _ h)
        | termReference name =>
          simp only [handle] at h
          split at h
          · rename_i v0 st3 heqI
            refine (ok_state h) ▸ ⟨rfl, ?_⟩
            have hin := ihH _ _ _ _ heqI
            have hlk := lookup_reference_cd ctx (.base (.termReference name))
              { st with current := { args := [], error_for_missing_arg := false } }
            exact hin.2.trans hlk.2
          · simp at h
        | attributeExpression ref aname =>
          simp only [handle] at h
          exact CDeq_trans (lookup_reference_cd ctx _ st) (ihH _ _ _ _ h)
        | selectExpression selector variants =>
          simp only [handle] at h
          split at h
          · simp at h
          · rename_i key st1 heqS
            exact CDeq_trans (ihH _ _ _ _ heqS) (ihSSE _ _ _ _ _ h)
        | variantListE variants =>
          simp only [handle] at h
          exact ihSVL _ _ _ _ _ h
        | variantExpression ref key =>
          simp only [handle] at h
          split at h
          · exact (ok_state h) ▸ lookup_reference_cd ctx _ st
          · split at h
            · exact CDeq_trans (lookup_reference_cd ctx _ st) (ihSVL _ _ _ _ _ h)
            · simp at h
        | callExpression callee positional named =>
          simp only [handle] at h
          split at h
          · simp at h
          · rename_i args st1 heqA
            split at h
            · simp at h
            · rename_i kwargs stN heqN
              have hA := ihAL _ _ _ _ heqA
              have hN := ihNA _ _ _ _ _ heqN
              split at h
              · rename_i cref hcr
                split at h
                · rename_i v0 st5 heqI
                  have hI := ihH _ _ _ _ heqI
                  have hlk := lookup_reference_cd ctx cref stN
                  refine (ok_state h) ▸ ⟨?_, ?_⟩
                  · have hite : (if args.isEmpty then (lookup_reference ctx cref stN).2
                        else { (lookup_reference ctx cref stN).2 with errors :=
                          (lookup_reference ctx cref stN).2.errors
                            ++ [.ignoredPositionalArgs (reference_to_id cref)] }).current
                        = (lookup_reference ctx cref stN).2.current := by
                      split <;> rfl
                    exact hite.trans (hlk.1.trans (hN.1.trans hA.1))
                  · have hite : (if args.isEmpty then (lookup_reference ctx cref stN).2
                        else { (lookup_reference ctx cref stN).2 with errors :=
                          (lookup_reference ctx cref stN).2.errors
                            ++ [.ignoredPositionalArgs (reference_to_id cref)] }).dirty
                        = (lookup_reference ctx cref stN).2.dirty := by
                      split <;> rfl
                    exact hI.2.trans (hite.trans (hlk.2.trans (hN.2.trans hA.2)))
                · simp at h
              · split at h
                · rename_i fname
                  split at h
                  · exact (ok_state h) ▸ CDeq_trans (CDeq_trans hA hN) ⟨rfl, rfl⟩
                  · rename_i f
                    split at h
                    · exact (ok_state h) ▸ CDeq_trans (CDeq_trans hA hN) ⟨rfl, rfl⟩
                    · exact (ok_state h) ▸ CDeq_trans (CDeq_trans hA hN) ⟨rfl, rfl⟩
                · simp at h
      | variantKey k =>
        cases k with
        | identifier name =>
          simp only [handle] at h
          exact (ok_state h) ▸ CDeq_rfl st
        | number nv =>
          simp only [handle] at h
          exact (ok_state h) ▸ CDeq_rfl st
      | value v =>
        cases v with
        | str s => simp [handle] at h
        | num nv =>
          simp only [handle] at h
          exact (ok_state h) ▸ CDeq_rfl st
        | vnone nm =>
          simp only [handle] at h
          exact (ok_state h) ▸ CDeq_rfl st
    · -- fully_resolve
      intro node st s st2 h
      simp only [fully_resolve] at h
      split at h
      · simp at h
      · rename_i sv st1 heq
        exact (ok_state h) ▸ ihH node st _ st1 heq
      · rename_i v st1 hne heq
        exact CDeq_trans (ihH node st _ st1 heq) (ihFR _ st1 s st2 h)
    · -- handle_pattern_loop
      intro els iso parts st r st2 h
      cases els with
      | nil =>
        simp only [handle_pattern_loop] at h
        exact (ok_state h) ▸ CDeq_rfl st
      | cons el rest =>
        simp only [handle_pattern_loop] at h
        split at h
        · split at h
          · split at h
            · simp at h
            · rename_i sF stF heqF
              refine (ok_state h) ▸ CDeq_trans ?_ (ihFR _ _ _ _ heqF)
              exact ⟨rfl, rfl⟩
          · exact (ok_state h) ▸ ⟨rfl, rfl⟩
        · cases el with
          | textElement v =>
            dsimp only at h
            refine CDeq_trans ?_ (ihLoop _ _ _ _ _ _ h)
            exact ⟨rfl, rfl⟩
          | placeable e =>
            dsimp only at h
            split at h
            · simp at h
            · rename_i part st1 heqF
              refine CDeq_trans ?_ (CDeq_trans (ihFR _ _ _ _ heqF)
                  (CDeq_trans ?_ (ihLoop _ _ _ _ _ _ h)))
              · exact ⟨rfl, rfl⟩
              · split <;> exact ⟨rfl, rfl⟩
    · -- select_from_variant_list
      intro vs key st r st2 h
      simp only [select_from_variant_list] at h
      split at h
      · simp at h
      · rename_i found dflt st1 heqL
        split at h
        · rename_i f
          exact CDeq_trans (ihVLL _ _ _ _ _ _ heqL) (ihH _ _ _ _ h)
        · split at h
          · simp at h
          · rename_i f
            split at h
            · refine CDeq_trans (ihVLL _ _ _ _ _ _ heqL)
                (CDeq_trans ?_ (ihH _ _ _ _ h))
              exact ⟨rfl, rfl⟩
            · exact CDeq_trans (ihVLL _ _ _ _ _ _ heqL) (ihH _ _ _ _ h)
    · -- variant_list_loop
      intro vs key dflt st r st2 h
      cases vs with
      | nil =>
        simp only [variant_list_loop] at h
        exact (ok_state h) ▸ CDeq_rfl st
      | cons v rest =>
        simp only [variant_list_loop] at h
        split at h
        · exact (ok_state h) ▸ CDeq_rfl st
        · split at h
          · simp at h
          · rename_i cv st1 heqK
            split at h
            · exact (ok_state h) ▸ ihH _ _ _ _ heqK
            · exact CDeq_trans (ihH _ _ _ _ heqK) (ihVLL _ _ _ _ _ _ h)
    · -- select_from_select_expression
      intro vs key st r st2 h
      simp only [select_from_select_expression] at h
      split at h
      · simp at h
      · rename_i found0 dflt st1 heqL
        split at h
        · exact (ok_state h) ▸ ihSEL _ _ _ _ _ _ heqL
        · exact CDeq_trans (ihSEL _ _ _ _ _ _ heqL) (ihH _ _ _ _ h)
    · -- select_expr_loop
      intro vs key dflt st r st2 h
      cases vs with
      | nil =>
        simp only [select_expr_loop] at h
        exact (ok_state h) ▸ CDeq_rfl st
      | cons v rest =>
        simp only [select_expr_loop] at h
        split at h
        · simp at h
        · rename_i cv st1 heqK
          split at h
          · exact (ok_state h) ▸ ihH _ _ _ _ heqK
          · exact CDeq_trans (ihH _ _ _ _ heqK) (ihSEL _ _ _ _ _ _ h)
    · -- handle_args_list
      intro es st r st2 h
      cases es with
      | nil =>
        simp only [handle_args_list] at h
        exact (ok_state h) ▸ CDeq_rfl st
      | cons e rest =>
        simp only [handle_args_list] at h
        split at h
        · simp at h
        · rename_i v st1 heqV
          split at h
          · simp at h
          · rename_i vs st3 heqR
            exact (ok_state h) ▸ CDeq_trans (ihH _ _ _ _ heqV) (ihAL _ _ _ _ heqR)
    · -- handle_named_args
      intro nas acc st r st2 h
      cases nas with
      | nil =>
        simp only [handle_named_args] at h
        exact (ok_state h) ▸ CDeq_rfl st
      | cons na rest =>
        simp only [handle_named_args] at h
        split at h
        · simp at h
        · rename_i v st1 heqV
          exact CDeq_trans (ihH _ _ _ _ heqV) (ihNA _ _ _ _ _ h)

/-- Claim C2 (amended): every nested evaluation that installs replacement argument
bindings restores the previous bindings exactly once when control returns normally, on
every normal exit path of the subtree; when a raised error propagates out of the
subtree the context manager (which has no try/finally) skips the restoration, and the
failing environment is abandoned by resolve. -/
theorem claim_C2 (ctx : Ctx) (fuel : Nat) (node : HNode) (st : St) (r : Value) (st2 : St)
    (h : handle ctx fuel node st = (.ok r, st2)) : st2.current = st.current :=
  ((cd_preservation ctx fuel).1 node st r st2 h).1

/-- Witness for claim C2: a successful term call with replacement bindings returns with
the original binding of x intact. -/
theorem claim_C2_witness :
    (handle ctxTermB 20 (.expr exprTermCall) stWithArg).2.current = stWithArg.current :=
  claim_C2 ctxTermB 20 (.expr exprTermCall) stWithArg (.str "B")
    ((handle ctxTermB 20 (.expr exprTermCall) stWithArg).2) (by rfl)

/-- Claim C3 (amended): re-entering a pattern already in the guard set appends exactly
one cyclic-reference diagnostic per re-entry and returns a placeholder immediately,
with the guard set and part counter untouched (a message with a single self-reference
therefore yields exactly one diagnostic and a placeholder-derived fallback string);
and every pattern resolution that returns normally leaves the guard set exactly as it
found it, having added the pattern identity for the duration of the traversal and
removed it on completion. -/
theorem claim_C3 :
    (∀ (ctx : Ctx) (fuel : Nat) (p : Pattern) (st : St),
       st.dirty.contains p.pid = true →
       handle ctx (fuel+1) (.pattern p) st
         = (.ok (.vnone none), { st with errors := st.errors ++ [.cyclicReference] }))
    ∧ (∀ (ctx : Ctx) (fuel : Nat) (node : HNode) (st : St) (r : Value) (st2 : St),
       handle ctx fuel node st = (.ok r, st2) → st2.dirty = st.dirty)
    ∧ resolve ctxSelfRef msgSelfRef [] 30 = .ok ("", [.cyclicReference]) := by
  refine ⟨?_, ?_, ?_⟩
  · intro ctx fuel p st h
    simp only [handle]
    rw [if_pos h]
  · intro ctx fuel node st r st2 h
    exact ((cd_preservation ctx fuel).1 node st r st2 h).2
  · rfl

/-- Witness for claim C3: the aborted path evaluated at a state already guarding the
self-referencing pattern, plus the single self-reference message end to end. -/
theorem claim_C3_witness :
    stDirty0.dirty.contains patSelfRef.pid = true
    ∧ handle ctxEmpty 1 (.pattern patSelfRef) stDirty0
        = (.ok (.vnone none), { stDirty0 with errors := stDirty0.errors ++ [.cyclicReference] })
    ∧ resolve ctxSelfRef msgSelfRef [] 30 = .ok ("", [.cyclicReference]) :=
  ⟨by decide, claim_C3.1 ctxEmpty 0 patSelfRef stDirty0 (by decide), claim_C3.2.2⟩
